import Mathlib

set_option maxHeartbeats 1000000

/- Verification development for the survival-game server (server.js).
The data model and each operation (rollLoot, grantCapsAndXp, rollEncounter,
equipItem, craftItem, ensurePlayer, the faction endpoints and the
claim-survival workflow) are shallowly embedded below, translated directly
from the source. Machine numbers are modelled as Int, and the JS floating
point quantities that the relevant claims treat as exact decimals (loot
weights, reputation bonus factors, random draws) as Rat. Randomness, the
current time and the external mint outcome are passed as explicit
parameters. -/

/-- Stat payload of an item or recipe: an open numeric map in the source,
modelled as a record of the stat keys that occur in the static data. -/
structure Stats where
  value : Option Int := none
  ammo : Option Int := none
  intel : Option Int := none
  charisma : Option Int := none
  attack : Option Int := none
  energy : Option Bool := none
  defense : Option Int := none
  carry : Option Int := none
  heal : Option Int := none
deriving DecidableEq

/-- Inventory item: materialized loot or crafted object (server.js item shape). -/
structure Item where
  id : String
  name : String
  type : String
  rarity : String
  stats : Stats
  source : Option String := none
  ts : Option Int := none
  nftMint : Option String := none
deriving DecidableEq

/-- Reward-table entry of a location lootTable (has a selection weight). -/
structure LootEntry where
  id : String
  name : String
  type : String
  weight : Rat
  rarity : String
  stats : Stats
deriving DecidableEq

/-- Per-faction reputation map: factionRep of the player. -/
structure FactionRep where
  brotherhood : Int
  raiders : Int
  vault : Int
deriving DecidableEq

/-- Gear slots of the player: { head, body, weapon, accessory }. -/
structure Gear where
  head : Option Item
  body : Option Item
  weapon : Option Item
  accessory : Option Item
deriving DecidableEq

/-- The four equip slots, as named by the strings in equipItem. -/
inductive Slot
  | head
  | body
  | weapon
  | accessory
deriving DecidableEq

/-- Cooldown record of the player: cooldowns.claim in the source. -/
structure Cooldowns where
  claim : Int
deriving DecidableEq

/-- Player record as created by ensurePlayer in server.js. -/
structure Player where
  wallet : String
  caps : Int
  lvl : Int
  xp : Int
  hp : Int
  max_hp : Int
  lastClaim : Int
  factionRep : FactionRep
  inventory : List Item
  gear : Gear
  cooldowns : Cooldowns
deriving DecidableEq

/-- Default player created on first reference (the literal in ensurePlayer). -/
def defaultPlayer (wallet : String) : Player :=
  { wallet := wallet
    caps := 0
    lvl := 1
    xp := 0
    hp := 100
    max_hp := 100
    lastClaim := 0
    factionRep := { brotherhood := 0, raiders := 0, vault := 0 }
    inventory := []
    gear := { head := none, body := none, weapon := none, accessory := none }
    cooldowns := { claim := 0 } }

/-- Slot selection in equipItem: the chained conditional on item.type. -/
def slotFor (t : String) : Option Slot :=
  if t = "head" then some Slot.head
  else if t = "body" then some Slot.body
  else if t = "weapon" then some Slot.weapon
  else if t = "accessory" then some Slot.accessory
  else none

/-- Read a gear slot. -/
def gearAt (g : Gear) : Slot → Option Item
  | Slot.head => g.head
  | Slot.body => g.body
  | Slot.weapon => g.weapon
  | Slot.accessory => g.accessory

/-- Write a gear slot (player.gear[slot] = item). -/
def setGear (g : Gear) : Slot → Item → Gear
  | Slot.head, it => { g with head := some it }
  | Slot.body, it => { g with body := some it }
  | Slot.weapon, it => { g with weapon := some it }
  | Slot.accessory, it => { g with accessory := some it }

/-- JS truthiness of item.stats?.defense: present and nonzero. -/
def defenseTruthy (s : Stats) : Bool :=
  match s.defense with
  | some d => d != 0
  | none => false

/-- Result of equipItem: { error } or { success, slot, item }. -/
inductive EquipResult
  | err (msg : String)
  | ok (slot : Slot) (item : Item)
deriving DecidableEq

/-- State change of a successful equip: place the item into the slot and,
when its defense stat is truthy, recompute max_hp as 100 + defense and
clamp hp to the new maximum (the tail of equipItem in server.js). -/
def equipApply (p : Player) (item : Item) (slot : Slot) : Player :=
  let p1 := { p with gear := setGear p.gear slot item }
  if defenseTruthy item.stats then
    { p1 with max_hp := 100 + (item.stats.defense.getD 0)
              hp := min p1.hp (100 + (item.stats.defense.getD 0)) }
  else p1

/-- Embedding of equipItem(player, itemId) from server.js, returning the
result together with the updated player. -/
def equipItem (p : Player) (itemId : String) : EquipResult × Player :=
  match p.inventory.find? (fun i => i.id == itemId) with
  | none => (EquipResult.err ("Item not found"), p)
  | some item =>
    match slotFor item.type with
    | none => (EquipResult.err ("Item is not equippable"), p)
    | some slot => (EquipResult.ok slot item, equipApply p item slot)

lemma gearAt_setGear_same (g : Gear) (s : Slot) (it : Item) :
    gearAt (setGear g s it) s = some it := by
  cases s <;> rfl

lemma gearAt_setGear_other (g : Gear) (s s' : Slot) (it : Item) (h : s' ≠ s) :
    gearAt (setGear g s it) s' = gearAt g s' := by
  cases s <;> cases s' <;> first | rfl | exact absurd rfl h

lemma equipApply_inventory (p : Player) (item : Item) (slot : Slot) :
    (equipApply p item slot).inventory = p.inventory := by
  simp only [equipApply]
  split <;> rfl

lemma equipApply_gear (p : Player) (item : Item) (slot : Slot) :
    (equipApply p item slot).gear = setGear p.gear slot item := by
  simp only [equipApply]
  split <;> rfl

/-- C8: equip never creates or destroys inventory items; an absent item
fails with item-not-found and changes nothing; a non-equippable category
fails with not-equippable and changes nothing; a successful equip leaves
the inventory untouched (so any previous occupant of the slot is still in
inventory) and changes only the corresponding gear slot among the slots. -/
theorem equip_frame (p : Player) (itemId : String) :
    (p.inventory.find? (fun i => i.id == itemId) = none →
      equipItem p itemId = (EquipResult.err ("Item not found"), p)) ∧
    (∀ item, p.inventory.find? (fun i => i.id == itemId) = some item →
      slotFor item.type = none →
      equipItem p itemId = (EquipResult.err ("Item is not equippable"), p)) ∧
    (∀ item slot, p.inventory.find? (fun i => i.id == itemId) = some item →
      slotFor item.type = some slot →
      (equipItem p itemId).1 = EquipResult.ok slot item ∧
      (equipItem p itemId).2.inventory = p.inventory ∧
      gearAt (equipItem p itemId).2.gear slot = some item ∧
      (∀ s, s ≠ slot → gearAt (equipItem p itemId).2.gear s = gearAt p.gear s) ∧
      (∀ it0, gearAt p.gear slot = some it0 → it0 ∈ p.inventory →
        it0 ∈ (equipItem p itemId).2.inventory)) := by
  refine ⟨?_, ?_, ?_⟩
  · intro h
    simp only [equipItem, h]
  · intro item hfind hslot
    simp only [equipItem, hfind, hslot]
  · intro item slot hfind hslot
    have he : equipItem p itemId = (EquipResult.ok slot item, equipApply p item slot) := by
      simp only [equipItem, hfind, hslot]
    rw [he]
    refine ⟨rfl, equipApply_inventory p item slot, ?_, ?_, ?_⟩
    · rw [equipApply_gear]
      exact gearAt_setGear_same _ _ _
    · intro s hs
      rw [equipApply_gear]
      exact gearAt_setGear_other _ _ _ _ hs
    · intro it0 _ hmem
      rw [equipApply_inventory]
      exact hmem

/-- Concrete material item used in witnesses. -/
def scrapItem : Item :=
  { id := "scrap_metal", name := "Scrap Metal", type := "material",
    rarity := "common", stats := { value := some 1 } }

/-- Concrete equippable head item used in witnesses. -/
def helmItem : Item :=
  { id := "helm1", name := "Helm", type := "head",
    rarity := "uncommon", stats := { defense := some 5 } }

/-- Player holding only the material item. -/
def pScrap : Player := { defaultPlayer "w" with inventory := [scrapItem] }

/-- Player holding only the head item. -/
def pHelm : Player := { defaultPlayer "w" with inventory := [helmItem] }

/-- C8 witness: the three branches of equip_frame at concrete inputs. -/
theorem equip_frame_witness :
    (equipItem (defaultPlayer "w") "nope" = (EquipResult.err ("Item not found"), defaultPlayer "w")) ∧
    (equipItem pScrap "scrap_metal" = (EquipResult.err ("Item is not equippable"), pScrap)) ∧
    ((equipItem pHelm "helm1").1 = EquipResult.ok Slot.head helmItem ∧
      (equipItem pHelm "helm1").2.inventory = pHelm.inventory) := by
  refine ⟨?_, ?_, ?_, ?_⟩
  · exact (equip_frame (defaultPlayer "w") "nope").1 (by decide)
  · exact (equip_frame pScrap "scrap_metal").2.1 scrapItem (by decide) (by decide)
  · exact ((equip_frame pHelm "helm1").2.2 helmItem Slot.head (by decide) (by decide)).1
  · exact ((equip_frame pHelm "helm1").2.2 helmItem Slot.head (by decide) (by decide)).2.1

/-- C9 (amended): a successful equip of an item whose defense stat is
present and nonzero sets max_hp to exactly 100 + defense, independent of
level and other gear, and clamps hp to the new maximum; an item with no
defense stat, or with defense equal to 0 (falsy in the source condition),
leaves max_hp and hp unchanged. -/
theorem equip_defense_health (p : Player) (itemId : String) (item : Item) (slot : Slot)
    (hfind : p.inventory.find? (fun i => i.id == itemId) = some item)
    (hslot : slotFor item.type = some slot) :
    (∀ d : Int, item.stats.defense = some d → d ≠ 0 →
      (equipItem p itemId).2.max_hp = 100 + d ∧
      (equipItem p itemId).2.hp = min p.hp (100 + d)) ∧
    (item.stats.defense = none ∨ item.stats.defense = some 0 →
      (equipItem p itemId).2.max_hp = p.max_hp ∧
      (equipItem p itemId).2.hp = p.hp) := by
  have he : equipItem p itemId = (EquipResult.ok slot item, equipApply p item slot) := by
    simp only [equipItem, hfind, hslot]
  rw [he]
  constructor
  · intro d hd hd0
    have ht : defenseTruthy item.stats = true := by
      simp [defenseTruthy, hd, hd0]
    simp [equipApply, ht, hd]
  · intro hcase
    have ht : defenseTruthy item.stats = false := by
      rcases hcase with h | h <;> simp [defenseTruthy, h]
    simp [equipApply, ht]

/-- Item with a defense stat whose value is 0. -/
def zeroDefHelm : Item :=
  { id := "helm0", name := "Zero Helm", type := "head",
    rarity := "uncommon", stats := { defense := some 0 } }

/-- Player at raised max health holding the zero-defense helm. -/
def pZeroDef : Player :=
  { defaultPlayer "w" with max_hp := 130, hp := 120, inventory := [zeroDefHelm] }

/-- C9 counterexample: the equip succeeds for an item that carries a
defense stat (value 0), yet max_hp stays 130 instead of the 100 + 0 the
claim requires, because the source condition tests JS truthiness of the
stat and 0 is falsy. -/
theorem equip_defense_health_counterexample :
    zeroDefHelm.stats.defense = some 0 ∧
    (equipItem pZeroDef "helm0").1 = EquipResult.ok Slot.head zeroDefHelm ∧
    (equipItem pZeroDef "helm0").2.max_hp = 130 ∧
    ¬ (equipItem pZeroDef "helm0").2.max_hp = 100 + 0 := by
  decide

/-- C9 witness: equipping the defense-5 helm on a fresh player applies
100 + 5 and clamps hp; equipping the zero-defense helm leaves health as is. -/
theorem equip_defense_health_witness :
    ((equipItem pHelm "helm1").2.max_hp = 100 + 5 ∧
      (equipItem pHelm "helm1").2.hp = min pHelm.hp (100 + 5)) ∧
    ((equipItem pZeroDef "helm0").2.max_hp = pZeroDef.max_hp ∧
      (equipItem pZeroDef "helm0").2.hp = pZeroDef.hp) := by
  constructor
  · exact (equip_defense_health pHelm "helm1" helmItem Slot.head (by decide) (by decide)).1
      5 (by decide) (by decide)
  · exact (equip_defense_health pZeroDef "helm0" zeroDefHelm Slot.head (by decide) (by decide)).2
      (Or.inr (by decide))

/-- Crafting recipe: output template plus required material counts, in the
declaration order of the source object literal. -/
structure Recipe where
  name : String
  type : String
  rarity : String
  requires : List (String × Nat)
  stats : Stats
deriving DecidableEq

/-- The scav_helmet recipe from craftItem. -/
def scavHelmetRecipe : Recipe :=
  { name := "Scavenger Helmet", type := "head", rarity := "uncommon",
    requires := [("scrap_metal", 3), ("duct_tape", 1)],
    stats := { defense := some 5 } }

/-- The makeshift_rifle recipe from craftItem. -/
def makeshiftRifleRecipe : Recipe :=
  { name := "Makeshift Rifle", type := "weapon", rarity := "uncommon",
    requires := [("scrap_metal", 2), ("rare_tech", 1)],
    stats := { attack := some 12 } }

/-- The static recipe set of craftItem. -/
def recipes (recipeId : String) : Option Recipe :=
  if recipeId = "scav_helmet" then some scavHelmetRecipe
  else if recipeId = "makeshift_rifle" then some makeshiftRifleRecipe
  else none

/-- Indices (ascending) of the inventory items with a given identifier,
starting the numbering at start: the per-identifier index arrays that the
bag object of craftItem accumulates. -/
def bagIndicesFrom (m : String) : Nat → List Item → List Nat
  | _, [] => []
  | start, it :: rest =>
    if it.id == m then start :: bagIndicesFrom m (start + 1) rest
    else bagIndicesFrom m (start + 1) rest

/-- The bag entry for one material identifier. -/
def bagIndices (inv : List Item) (m : String) : List Nat := bagIndicesFrom m 0 inv

/-- Number of inventory items with the given identifier. -/
def countId (inv : List Item) (m : String) : Nat := inv.countP (fun it => it.id == m)

lemma bagIndicesFrom_length (m : String) :
    ∀ (inv : List Item) (start : Nat),
      (bagIndicesFrom m start inv).length = inv.countP (fun it => it.id == m) := by
  intro inv
  induction inv with
  | nil => intro s; rfl
  | cons it rest ih =>
    intro s
    by_cases h : it.id == m
    · simp [bagIndicesFrom, h, List.countP_cons, ih]
    · simp [bagIndicesFrom, h, List.countP_cons, ih]

lemma bagIndices_length (inv : List Item) (m : String) :
    (bagIndices inv m).length = countId inv m :=
  bagIndicesFrom_length m inv 0

/-- Materials check of craftItem: walk the required materials in order and
report the first one whose bag count falls short, together with the
shortfall amount. -/
def checkMissing (inv : List Item) : List (String × Nat) → Option (String × Nat)
  | [] => none
  | (matId, qty) :: rest =>
    let haveCount := (bagIndices inv matId).length
    if haveCount < qty then some (matId, qty - haveCount) else checkMissing inv rest

/-- JS Array.prototype.splice(idx, 1): drop the element at idx when idx is
in range, otherwise leave the list unchanged. -/
def spliceAt (l : List Item) (idx : Nat) : List Item :=
  l.take idx ++ l.drop (idx + 1)

/-- Consumption loop for one material of craftItem: qty times, pop the
last recorded index off the bag entry and splice the inventory there. The
recorded indices are NOT adjusted for earlier splices. -/
def consumeMat : Nat → List Item × List Nat → List Item × List Nat
  | 0, s => s
  | q + 1, (inv, idxs) =>
    consumeMat q
      (match idxs.getLast? with
       | some idx => (spliceAt inv idx, idxs.dropLast)
       | none => (spliceAt inv 0, []))

/-- Consumption over all required materials, using the bag computed once
from the pre-consumption inventory (as the source does). -/
def consumeAll (bag : String → List Nat) : List Item → List (String × Nat) → List Item
  | inv, [] => inv
  | inv, (matId, qty) :: rest => consumeAll bag (consumeMat qty (inv, bag matId)).1 rest

/-- Result of craftItem: { error } or { success, item }. -/
inductive CraftResult
  | err (msg : String)
  | ok (item : Item)
deriving DecidableEq

/-- Embedding of craftItem(player, recipeId) from server.js; now stands for
the Date.now() timestamp used for the fresh identifier and creation time. -/
def craftItem (p : Player) (recipeId : String) (now : Int) : CraftResult × Player :=
  match recipes recipeId with
  | none => (CraftResult.err ("Unknown recipe"), p)
  | some recipe =>
    match checkMissing p.inventory recipe.requires with
    | some md =>
      (CraftResult.err ("Missing " ++ md.1 ++ " x" ++ toString md.2), p)
    | none =>
      let inv1 := consumeAll (bagIndices p.inventory) p.inventory recipe.requires
      let crafted : Item :=
        { id := recipeId ++ "_" ++ toString now, name := recipe.name,
          type := recipe.type, rarity := recipe.rarity, stats := recipe.stats,
          source := some ("crafting"), ts := some now }
      (CraftResult.ok crafted, { p with inventory := inv1 ++ [crafted] })

lemma checkMissing_eq_find (inv : List Item) :
    ∀ reqs : List (String × Nat),
      checkMissing inv reqs =
        (reqs.find? (fun mq => decide (countId inv mq.1 < mq.2))).map
          (fun mq => (mq.1, mq.2 - countId inv mq.1)) := by
  intro reqs
  induction reqs with
  | nil => rfl
  | cons mq rest ih =>
    obtain ⟨matId, qty⟩ := mq
    by_cases h : countId inv matId < qty
    · have hb : (bagIndices inv matId).length < qty := by
        rw [bagIndices_length]; exact h
      simp [checkMissing, hb, List.find?_cons, h, bagIndices_length]
    · have hb : ¬ (bagIndices inv matId).length < qty := by
        rw [bagIndices_length]; exact h
      simp [checkMissing, hb, List.find?_cons, h, ih]

/-- Concrete rare material item used in the crafting theorems. -/
def rareTechItem : Item :=
  { id := "rare_tech", name := "Rare Tech", type := "material",
    rarity := "rare", stats := { intel := some 5 } }

/-- Concrete consumable item used in the crafting theorems. -/
def ammoPackItem : Item :=
  { id := "ammo_pack", name := "Ammo Pack", type := "consumable",
    rarity := "uncommon", stats := { ammo := some 20 } }

/-- Concrete consumable item used in the crafting theorems. -/
def medXItem : Item :=
  { id := "med_x", name := "Med-X", type := "consumable",
    rarity := "uncommon", stats := { heal := some 15 } }

/-- Player with sufficient materials for makeshift_rifle: two scrap_metal,
one rare_tech, plus two unrelated items behind them. -/
def c1Player : Player :=
  { defaultPlayer "w1" with
      inventory := [scrapItem, scrapItem, rareTechItem, ammoPackItem, medXItem] }

/-- C1: evaluation of craftItem at a failing input. The player holds
exactly the required two scrap_metal and one rare_tech (plus an ammo_pack
and a med_x). The required counts are present, yet after crafting the
rare_tech is still in the inventory and the med_x has been destroyed: the
consumption loop splices at indices recorded before the earlier splices
shifted the array, so a stale index removes the wrong item. The claim
(and the spec) require the post inventory [ammo_pack, med_x, crafted]. -/
theorem craft_consume_splice_bug :
    countId c1Player.inventory "scrap_metal" = 2 ∧
    countId c1Player.inventory "rare_tech" = 1 ∧
    (craftItem c1Player "makeshift_rifle" 0).2.inventory.map Item.id =
      ["rare_tech", "ammo_pack", "makeshift_rifle_0"] := by
  decide

/-- C3: when the inventory is short of some required material, craftItem
aborts before any removal: it returns the missing-materials error naming
the first deficient material in recipe order together with the shortfall
amount, and the player is returned exactly unchanged. -/
theorem craft_shortfall_atomic (p : Player) (recipeId : String) (now : Int)
    (r : Recipe) (m : String) (q : Nat)
    (hr : recipes recipeId = some r)
    (hfind : r.requires.find? (fun mq => decide (countId p.inventory mq.1 < mq.2)) =
      some (m, q)) :
    craftItem p recipeId now =
      (CraftResult.err ("Missing " ++ m ++ " x" ++ toString (q - countId p.inventory m)), p) := by
  have hc : checkMissing p.inventory r.requires = some (m, q - countId p.inventory m) := by
    rw [checkMissing_eq_find, hfind]
    rfl
  simp only [craftItem, hr, hc]

/-- C3 witness: a player with an empty inventory crafting scav_helmet gets
the error naming scrap_metal (the first requirement) with shortfall 3, and
is unchanged. -/
theorem craft_shortfall_atomic_witness :
    craftItem (defaultPlayer "w") "scav_helmet" 0 =
      (CraftResult.err ("Missing scrap_metal x3"), defaultPlayer "w") := by
  have h := craft_shortfall_atomic (defaultPlayer "w") "scav_helmet" 0
    scavHelmetRecipe "scrap_metal" 3 (by decide) (by decide)
  simpa using h


/-- One iteration of the leveling loop body of grantCapsAndXp: subtract
the threshold, increment the level, add 10 max_hp, refill hp. -/
def levelStep (T : Int) (p : Player) : Player :=
  { p with xp := p.xp - T, lvl := p.lvl + 1,
           max_hp := p.max_hp + 10, hp := p.max_hp + 10 }

/-- Leveling loop of grantCapsAndXp with the threshold T fixed across
iterations (the source computes const nextLvXp = player.lvl * 100 once,
before the loop, and never re-evaluates it). The fuel argument bounds the
iteration count; grantCapsAndXp supplies fuel that is never exhausted when
the level is at least 1, which holds for every player the server creates. -/
def levelUpLoop (T : Int) : Nat → Player → Bool → Player × Bool
  | 0, p, lev => (p, lev)
  | fuel + 1, p, lev =>
    if T ≤ p.xp then levelUpLoop T fuel (levelStep T p) true
    else (p, lev)

/-- Embedding of grantCapsAndXp(player, capsEarned, xpEarned) from
server.js: caps added unconditionally, xp added, then the fixed-threshold
leveling loop; returns the player and the leveledUp flag. -/
def grantCapsAndXp (p : Player) (capsEarned xpEarned : Int) : Player × Bool :=
  let p1 := { p with caps := p.caps + capsEarned, xp := p.xp + xpEarned }
  let T := p1.lvl * 100
  levelUpLoop T (p1.xp.toNat + 1) p1 false

/-- Closed form of the fixed-threshold leveling loop: with k = xp / T level
ups happen, each adding 10 max_hp, and hp is refilled iff k is positive. -/
def levelClosed (T : Int) (p : Player) (lev : Bool) : Player × Bool :=
  ({ p with xp := p.xp - (p.xp.toNat / T.toNat : Nat) * T,
            lvl := p.lvl + (p.xp.toNat / T.toNat : Nat),
            max_hp := p.max_hp + 10 * (p.xp.toNat / T.toNat : Nat),
            hp := if p.xp.toNat / T.toNat = 0 then p.hp
                  else p.max_hp + 10 * (p.xp.toNat / T.toNat : Nat) },
   lev || decide (0 < p.xp.toNat / T.toNat))

lemma levelUpLoop_eq_closed (T : Int) (hT : 1 ≤ T) :
    ∀ (fuel : Nat) (p : Player) (lev : Bool),
      p.xp.toNat / T.toNat < fuel →
      levelUpLoop T fuel p lev = levelClosed T p lev := by
  intro fuel
  induction fuel with
  | zero => intro p lev h; exact absurd h (Nat.not_lt_zero _)
  | succ fuel ih =>
    intro p lev h
    by_cases hx : T ≤ p.xp
    · have hTn : 1 ≤ T.toNat := by omega
      have hxn : T.toNat ≤ p.xp.toNat := by omega
      have hstep : p.xp.toNat / T.toNat = (p.xp.toNat - T.toNat) / T.toNat + 1 := by
        rw [Nat.div_eq_sub_div (by omega) hxn]
      have hx' : (levelStep T p).xp.toNat = p.xp.toNat - T.toNat := by
        simp only [levelStep]
        omega
      have hk' : (levelStep T p).xp.toNat / T.toNat < fuel := by
        rw [hx']
        omega
      rw [levelUpLoop, if_pos hx, ih _ true hk']
      have hx2 : (p.xp - T).toNat = p.xp.toNat - T.toNat := by omega
      simp only [levelClosed, levelStep, Prod.mk.injEq]
      simp only [hx2, hstep]
      generalize (p.xp.toNat - T.toNat) / T.toNat = n
      constructor
      · congr 1
        all_goals try rfl
        all_goals try (push_cast; ring)
        all_goals rcases Nat.eq_zero_or_pos n with hn | hn <;>
          simp [hn, Nat.succ_ne_zero] <;> push_cast <;> ring
      · simp
    · have hk0 : p.xp.toNat / T.toNat = 0 := by
        apply Nat.div_eq_of_lt
        omega
      rw [levelUpLoop, if_neg hx]
      simp only [levelClosed, hk0, Prod.mk.injEq]
      constructor
      · congr 1 <;> push_cast <;> simp
      · simp

/-- Characterization of grantCapsAndXp for any player whose level is at
least 1: caps and xp are added, then k = floor((xp + delta) / (entry
level * 100)) level-ups occur against the fixed entry threshold. -/
lemma grantCapsAndXp_closed (p : Player) (c x : Int) (h : 1 ≤ p.lvl) :
    grantCapsAndXp p c x =
      levelClosed (p.lvl * 100) { p with caps := p.caps + c, xp := p.xp + x } false := by
  have hT : 1 ≤ p.lvl * 100 := by omega
  apply levelUpLoop_eq_closed (p.lvl * 100) hT
  exact Nat.lt_succ_of_le (Nat.div_le_self _ _)

/-- Leveling loop as the claim describes it, for comparison: the threshold
is re-evaluated from the current level at each iteration. Written from the
claim wording, not from the source, to be diffed against levelUpLoop. -/
def reevalLoop : Nat → Player → Bool → Player × Bool
  | 0, p, lev => (p, lev)
  | fuel + 1, p, lev =>
    if p.lvl * 100 ≤ p.xp then
      reevalLoop fuel (levelStep (p.lvl * 100) p) true
    else (p, lev)

/-- Grant operation as the claim describes it: currency added, experience
added, then the re-evaluated-threshold loop. -/
def grantReeval (p : Player) (capsEarned xpEarned : Int) : Player × Bool :=
  let p1 := { p with caps := p.caps + capsEarned, xp := p.xp + xpEarned }
  reevalLoop (p1.xp.toNat + 1) p1 false

/-- C2 counterexample: granting 250 xp to a fresh level-1 player. The code
subtracts the fixed entry threshold 100 twice, ending at level 3 with 50
xp; the claim re-evaluates the threshold after the first level-up (200 at
level 2), so it would end at level 2 with 150 xp. -/
theorem grant_fixed_threshold_counterexample :
    ((grantCapsAndXp (defaultPlayer "w") 0 250).1.lvl = 3 ∧
      (grantCapsAndXp (defaultPlayer "w") 0 250).1.xp = 50) ∧
    ((grantReeval (defaultPlayer "w") 0 250).1.lvl = 2 ∧
      (grantReeval (defaultPlayer "w") 0 250).1.xp = 150) := by
  decide

/-- C2 (amended): grant adds the currency delta unconditionally and the
experience delta, then loops on the threshold computed once from the
entry level (entry level * 100, never re-evaluated): it performs exactly
k = floor(newXp / threshold) iterations, each subtracting the fixed
threshold, incrementing the level, adding 10 max health and refilling
current health to the new maximum, and returns whether k is positive.
Holds for every player with level at least 1 and every pair of deltas. -/
theorem grant_fixed_threshold (p : Player) (c x : Int) (h : 1 ≤ p.lvl) :
    grantCapsAndXp p c x =
      levelClosed (p.lvl * 100) { p with caps := p.caps + c, xp := p.xp + x } false :=
  grantCapsAndXp_closed p c x h

/-- C2 witness: the characterization evaluated on a fresh player granted
7 caps and 250 xp. -/
theorem grant_fixed_threshold_witness :
    grantCapsAndXp (defaultPlayer "w") 7 250 =
      levelClosed ((defaultPlayer "w").lvl * 100)
        { defaultPlayer "w" with caps := (defaultPlayer "w").caps + 7,
                                 xp := (defaultPlayer "w").xp + 250 } false :=
  grant_fixed_threshold (defaultPlayer "w") 7 250 (by decide)

/-- C4: for a player at level L with 0 experience, granting exactly
L * 100 experience produces exactly one level-up, leaving 0 experience,
max health increased by 10 and current health refilled to the new
maximum; granting 2.5 * (L * 100) = 250 * L experience in one call
produces exactly two level-ups. -/
theorem grant_level_thresholds (p : Player) (c : Int)
    (h : 1 ≤ p.lvl) (hxp : p.xp = 0) :
    ((grantCapsAndXp p c (p.lvl * 100)).1.lvl = p.lvl + 1 ∧
      (grantCapsAndXp p c (p.lvl * 100)).1.xp = 0 ∧
      (grantCapsAndXp p c (p.lvl * 100)).1.max_hp = p.max_hp + 10 ∧
      (grantCapsAndXp p c (p.lvl * 100)).1.hp =
        (grantCapsAndXp p c (p.lvl * 100)).1.max_hp ∧
      (grantCapsAndXp p c (p.lvl * 100)).2 = true) ∧
    ((grantCapsAndXp p c (250 * p.lvl)).1.lvl = p.lvl + 2 ∧
      (grantCapsAndXp p c (250 * p.lvl)).2 = true) := by
  have hT : (0 : Int) < p.lvl * 100 := by omega
  have hTn : (p.lvl * 100).toNat = 100 * p.lvl.toNat := by omega
  have hn1 : 1 ≤ p.lvl.toNat := by omega
  constructor
  · rw [grantCapsAndXp_closed p c (p.lvl * 100) h]
    have hx1 : p.xp + p.lvl * 100 = p.lvl * 100 := by omega
    have hk : (p.xp + p.lvl * 100).toNat / (p.lvl * 100).toNat = 1 := by
      rw [hx1]
      exact Nat.div_self (by omega)
    simp only [levelClosed, hk]
    refine ⟨by push_cast; ring, by push_cast; omega, by push_cast; ring, by simp, by simp⟩
  · rw [grantCapsAndXp_closed p c (250 * p.lvl) h]
    have hx2 : (p.xp + 250 * p.lvl).toNat = 250 * p.lvl.toNat := by omega
    have hk : (p.xp + 250 * p.lvl).toNat / (p.lvl * 100).toNat = 2 := by
      rw [hx2, hTn]
      apply Nat.div_eq_of_lt_le
      · omega
      · omega
    simp only [levelClosed, hk]
    exact ⟨by push_cast; ring, by simp⟩

/-- C4 witness: both parts at a fresh level-1 player (thresholds 100 and
250). -/
theorem grant_level_thresholds_witness :
    ((grantCapsAndXp (defaultPlayer "w") 0 100).1.lvl = 2 ∧
      (grantCapsAndXp (defaultPlayer "w") 0 100).1.xp = 0 ∧
      (grantCapsAndXp (defaultPlayer "w") 0 100).1.max_hp = 110 ∧
      (grantCapsAndXp (defaultPlayer "w") 0 100).1.hp = 110 ∧
      (grantCapsAndXp (defaultPlayer "w") 0 100).2 = true) ∧
    ((grantCapsAndXp (defaultPlayer "w") 0 250).1.lvl = 3 ∧
      (grantCapsAndXp (defaultPlayer "w") 0 250).2 = true) := by
  have h := grant_level_thresholds (defaultPlayer "w") 0 (by decide) (by decide)
  simpa using h

/-- Reputation bonus factor of rollLoot: min(0.20, brotherhood * 0.002). -/
def repBonus (brotherhood : Int) : Rat :=
  min (1 / 5 : Rat) ((brotherhood : Rat) * (2 / 1000))

/-- Weight adjustment of rollLoot: rare and legendary entries get weight
multiplied by 1 + repBonus, all other entries keep their base weight. -/
def adjustWeights (lootTable : List LootEntry) (brotherhood : Int) : List LootEntry :=
  lootTable.map (fun e =>
    { e with weight := e.weight *
        (1 + (if e.rarity = "rare" ∨ e.rarity = "legendary" then repBonus brotherhood else 0)) })

/-- Selection walk of rollLoot: subtract each weight in table order from
the draw and return the first entry at which the remainder becomes
non-positive; none when the entries run out. -/
def rollLootWalk : Rat → List LootEntry → Option LootEntry
  | _, [] => none
  | r, e :: rest => if r - e.weight ≤ 0 then some e else rollLootWalk (r - e.weight) rest

/-- Embedding of rollLoot(lootTable, player) from server.js; brotherhood
is the player brotherhood reputation and rand the uniform draw in [0, 1)
that Math.random() produces. -/
def rollLoot (lootTable : List LootEntry) (brotherhood : Int) (rand : Rat) : Option LootEntry :=
  let adjusted := adjustWeights lootTable brotherhood
  let total := (adjusted.map (fun e => e.weight)).sum
  rollLootWalk (rand * total) adjusted

lemma repBonus_nonneg (b : Int) (hb : 0 ≤ b) : 0 ≤ repBonus b := by
  unfold repBonus
  apply le_min
  · norm_num
  · positivity

lemma rollLootWalk_isSome (l : List LootEntry) :
    ∀ r : Rat, (∀ e ∈ l, 0 < e.weight) →
      r < (l.map (fun e => e.weight)).sum →
      l = [] ∨ (rollLootWalk r l).isSome = true := by
  induction l with
  | nil => intro r _ _; exact Or.inl rfl
  | cons e rest ih =>
    intro r hw hr
    refine Or.inr ?_
    rw [rollLootWalk]
    by_cases hle : r - e.weight ≤ 0
    · simp [hle]
    · rw [if_neg hle]
      have hsum : r - e.weight < (rest.map (fun x => x.weight)).sum := by
        simp only [List.map_cons, List.sum_cons] at hr
        linarith
      rcases ih (r - e.weight) (fun x hx => hw x (List.mem_cons_of_mem _ hx)) hsum with hnil | hs
      · subst hnil
        simp only [List.map_nil, List.sum_nil] at hsum
        exact absurd (le_of_lt hsum) hle
      · exact hs

/-- C7 (amended): the roll uses effective weight base * (1 + bonus) with
bonus = min(0.20, brotherhood * 0.002) on rare and legendary entries and 0
elsewhere; zero reputation leaves every weight unmodified, and reputation
at or above 100 pins the bonus at exactly +20%; the walk subtracts
effective weights in table order from rand * total; an empty table rolls
none, and a nonempty table with positive base weights rolls some entry
whenever the brotherhood reputation is nonnegative (with reputation below
-500 the rare/legendary multiplier goes negative and a nonempty table can
roll none, so the unrestricted none-iff-empty claim fails). -/
theorem rollLoot_weights_and_some (lootTable : List LootEntry) (brotherhood : Int) (rand : Rat)
    (hw : ∀ e ∈ lootTable, 0 < e.weight) (hb : 0 ≤ brotherhood)
    (h0 : 0 ≤ rand) (h1 : rand < 1) :
    (rollLoot [] brotherhood rand = none) ∧
    (adjustWeights lootTable 0 = lootTable) ∧
    (100 ≤ brotherhood → repBonus brotherhood = 1 / 5) ∧
    (lootTable ≠ [] → (rollLoot lootTable brotherhood rand).isSome = true) := by
  refine ⟨rfl, ?_, ?_, ?_⟩
  · have hone : ∀ e : LootEntry,
        e.weight * (1 + (if e.rarity = "rare" ∨ e.rarity = "legendary" then repBonus 0 else 0)) =
          e.weight := by
      intro e
      have : repBonus 0 = 0 := by
        unfold repBonus
        norm_num
      split <;> simp [this]
    have hone' : (fun e : LootEntry =>
        ({ e with weight := e.weight *
            (1 + (if e.rarity = "rare" ∨ e.rarity = "legendary" then repBonus 0 else 0)) } :
          LootEntry)) = fun e => e := by
      funext e
      rw [hone e]
    unfold adjustWeights
    rw [hone']
    simp
  · intro h100
    unfold repBonus
    apply min_eq_left
    have : (100 : Rat) ≤ (brotherhood : Rat) := by exact_mod_cast h100
    linarith
  · intro hne
    have hbon : 0 ≤ repBonus brotherhood := repBonus_nonneg brotherhood hb
    have hadj : ∀ e ∈ adjustWeights lootTable brotherhood, 0 < e.weight := by
      intro e he
      rcases List.mem_map.mp he with ⟨e0, he0, rfl⟩
      simp only []
      have h0w := hw e0 he0
      have : (0 : Rat) <
          1 + (if e0.rarity = "rare" ∨ e0.rarity = "legendary" then repBonus brotherhood else 0) := by
        split <;> linarith
      exact mul_pos h0w this
    have hadjne : adjustWeights lootTable brotherhood ≠ [] := by
      unfold adjustWeights
      simpa using hne
    have htot : 0 < ((adjustWeights lootTable brotherhood).map (fun e => e.weight)).sum := by
      apply List.sum_pos
      · intro w hwm
        rcases List.mem_map.mp hwm with ⟨e, he, rfl⟩
        exact hadj e he
      · simpa using hadjne
    have hlt : rand * ((adjustWeights lootTable brotherhood).map (fun e => e.weight)).sum <
        ((adjustWeights lootTable brotherhood).map (fun e => e.weight)).sum := by
      calc rand * ((adjustWeights lootTable brotherhood).map (fun e => e.weight)).sum
          < 1 * ((adjustWeights lootTable brotherhood).map (fun e => e.weight)).sum := by
            exact mul_lt_mul_of_pos_right h1 htot
        _ = ((adjustWeights lootTable brotherhood).map (fun e => e.weight)).sum := one_mul _
    rcases rollLootWalk_isSome (adjustWeights lootTable brotherhood) _ hadj hlt with hnil | hs
    · exact absurd hnil hadjne
    · exact hs

/-- Single-entry rare reward table used in the C7 counterexample. -/
def rareOnlyTable : List LootEntry :=
  [{ id := "rare_tech", name := "Rare Tech", type := "material",
     weight := 15, rarity := "rare", stats := { intel := some 5 } }]

/-- C7 counterexample: a nonempty table whose roll returns none. With
brotherhood reputation -1000 the bonus is min(0.20, -2) = -2, the single
rare entry gets effective weight 15 * (1 - 2) = -15, the draw at rand = 0
is 0, and 0 - (-15) = 15 stays positive, so the walk falls off the end. -/
theorem rollLoot_none_nonempty_counterexample :
    rareOnlyTable ≠ [] ∧ rollLoot rareOnlyTable (-1000) 0 = none := by
  constructor
  · decide
  · norm_num [rollLoot, adjustWeights, rareOnlyTable, repBonus, rollLootWalk]

/-- C7 witness: the nukaTown reward table of server.js. -/
def nukaTownLootTable : List LootEntry :=
  [{ id := "scrap_metal", name := "Scrap Metal", type := "material",
     weight := 50, rarity := "common", stats := { value := some 1 } },
   { id := "ammo_pack", name := "Ammo Pack", type := "consumable",
     weight := 30, rarity := "uncommon", stats := { ammo := some 20 } },
   { id := "rare_tech", name := "Rare Tech", type := "material",
     weight := 15, rarity := "rare", stats := { intel := some 5 } },
   { id := "legendary_relic", name := "Legendary Relic", type := "artifact",
     weight := 5, rarity := "legendary", stats := { charisma := some 10 } }]

/-- C7 witness: the amended statement at the nukaTown table, reputation
100 and draw 1/2. -/
theorem rollLoot_weights_and_some_witness :
    (rollLoot [] 100 (1 / 2) = none) ∧
    (adjustWeights nukaTownLootTable 0 = nukaTownLootTable) ∧
    (repBonus 100 = 1 / 5) ∧
    ((rollLoot nukaTownLootTable 100 (1 / 2)).isSome = true) := by
  have h := rollLoot_weights_and_some nukaTownLootTable 100 (1 / 2)
    (by norm_num [nukaTownLootTable]) (by norm_num) (by norm_num) (by norm_num)
  exact ⟨h.1, h.2.1, h.2.2.1 (by norm_num),
    h.2.2.2 (by unfold nukaTownLootTable; exact List.cons_ne_nil _ _)⟩

/-- Embedding of rollEncounter(player): the draw bands of Math.random()
with their state effects and messages. -/
def rollEncounter (rand : Rat) (p : Player) : Option String × Player :=
  if rand < 18 / 100 then
    (some ("Raider ambush! Lost 12 HP."),
      { p with hp := max 0 (p.hp - 12),
               factionRep := { p.factionRep with raiders := p.factionRep.raiders + 4 } })
  else if rand < 28 / 100 then
    (some ("Brotherhood patrol! Gained 6 reputation."),
      { p with factionRep := { p.factionRep with brotherhood := p.factionRep.brotherhood + 6 } })
  else if rand < 34 / 100 then
    (some ("Vault Dweller aid! Restored 12 HP."),
      { p with hp := min p.max_hp (p.hp + 12),
               factionRep := { p.factionRep with vault := p.factionRep.vault + 5 } })
  else (none, p)

/-- Static location configuration (id, name, radius and loot table; the
registered coordinate feeds only the haversine distance, which the claims
never inspect, so the computed distance is passed to the workflow
directly). -/
structure Location where
  id : String
  name : String
  radiusM : Rat
  lootTable : List LootEntry
deriving DecidableEq

/-- Outcome of the external caps mint collaborator maybeMintCapsOnChain:
a transaction signature or a mint failure with detail. -/
inductive MintOutcome
  | tx (sig : String)
  | fail (detail : String)
deriving DecidableEq

/-- Server configuration relevant to the claim workflow: COOLDOWN_MS and
SIMULATE_MINT. -/
structure ClaimConfig where
  cooldownMs : Int
  simulateMint : Bool
deriving DecidableEq

/-- Player summary snapshot embedded in the claim response. -/
structure Snapshot where
  wallet : String
  caps : Int
  lvl : Int
  xp : Int
  hp : Int
  max_hp : Int
  factionRep : FactionRep
  inventoryCount : Nat
  gear : Gear
deriving DecidableEq

/-- Success payload of POST /claim-survival. -/
structure ClaimOk where
  location : String
  loot : Option Item
  encounter : Option String
  capsEarned : Int
  leveledUp : Bool
  player : Snapshot
  chain : Option MintOutcome
  cooldownEndsAt : Int
deriving DecidableEq

/-- Response of POST /claim-survival past the field/location validation. -/
inductive ClaimResponse
  | cooldownActive (remainingMs : Int)
  | outOfRange (distanceM allowedM : Rat)
  | ok (r : ClaimOk)
deriving DecidableEq

/-- Loot item materialized from a selected reward entry (the lootItem
literal of the handler, including the simulated NFT tag on rare or
legendary loot when SIMULATE_MINT is on). -/
def mkLootItem (cfg : ClaimConfig) (loc : Location) (e : LootEntry) (now : Int) : Item :=
  { id := e.id, name := e.name, type := e.type, rarity := e.rarity, stats := e.stats,
    source := some loc.name, ts := some now,
    nftMint := if cfg.simulateMint && (e.rarity == "rare" || e.rarity == "legendary")
               then some ("SIMULATED_NFT") else none }

/-- Reward-resolution body of POST /claim-survival, after the cooldown and
geofence gates: event modifiers, cooldown commit, loot roll and append,
encounter, event health risk, caps computation and grant, and the
assembled response with chain still null (the handler initializes chain to
null before the optional mint call). -/
def claimResolvePre (cfg : ClaimConfig) (p : Player) (loc : Location) (now : Int)
    (eventName : Option String) (lootRand encRand : Rat) : ClaimOk × Player :=
  let capsMod : Int :=
    if eventName = some ("Brotherhood Patrol") ∧ loc.id = "vault13" then 20 else 0
  let hpRisk : Int :=
    if eventName = some ("Raider Skirmish") ∧ loc.id = "nukaTown" then 10 else 0
  let p1 := { p with cooldowns := { claim := now } }
  let loot := rollLoot loc.lootTable p1.factionRep.brotherhood lootRand
  let lp : Option Item × Player :=
    match loot with
    | some e =>
      (some (mkLootItem cfg loc e now),
        { p1 with inventory := p1.inventory ++ [mkLootItem cfg loc e now] })
    | none => (none, p1)
  let ep := rollEncounter encRand lp.2
  let p3 := ep.2
  let p4 := if 0 < hpRisk then { p3 with hp := max 0 (p3.hp - hpRisk) } else p3
  let baseCaps : Int := 12
  let rarityBonus : Int :=
    match loot with
    | some e => if e.rarity = "legendary" then 60 else if e.rarity = "rare" then 24 else 0
    | none => 0
  let capsEarned := baseCaps + rarityBonus + capsMod
  let g := grantCapsAndXp p4 capsEarned 18
  ({ location := loc.name, loot := lp.1, encounter := ep.1, capsEarned := capsEarned,
     leveledUp := g.2,
     player := { wallet := g.1.wallet, caps := g.1.caps, lvl := g.1.lvl, xp := g.1.xp,
                 hp := g.1.hp, max_hp := g.1.max_hp, factionRep := g.1.factionRep,
                 inventoryCount := g.1.inventory.length, gear := g.1.gear },
     chain := none, cooldownEndsAt := g.1.cooldowns.claim + cfg.cooldownMs }, g.1)

/-- Reward resolution followed by the optional on-chain mint: when not
simulating, the mint outcome is recorded in the chain field of the
response; the player state is never touched by it. -/
def claimResolve (cfg : ClaimConfig) (p : Player) (loc : Location) (now : Int)
    (eventName : Option String) (lootRand encRand : Rat) (mint : MintOutcome) :
    ClaimOk × Player :=
  let pre := claimResolvePre cfg p loc now eventName lootRand encRand
  if cfg.simulateMint then pre else ({ pre.1 with chain := some mint }, pre.2)

/-- Embedding of POST /claim-survival past field/location validation:
cooldown gate, geofence gate (reportedDist is the haversine distance when
a coordinate was supplied), then reward resolution and settlement. -/
def claimSurvival (cfg : ClaimConfig) (p : Player) (loc : Location) (now : Int)
    (reportedDist : Option Rat) (eventName : Option String) (lootRand encRand : Rat)
    (mint : MintOutcome) : ClaimResponse × Player :=
  let last := p.cooldowns.claim
  if now - last < cfg.cooldownMs then
    (ClaimResponse.cooldownActive (cfg.cooldownMs - (now - last)), p)
  else
    match reportedDist with
    | some dist =>
      if loc.radiusM < dist then (ClaimResponse.outOfRange dist loc.radiusM, p)
      else
        let r := claimResolve cfg p loc now eventName lootRand encRand mint
        (ClaimResponse.ok r.1, r.2)
    | none =>
      let r := claimResolve cfg p loc now eventName lootRand encRand mint
      (ClaimResponse.ok r.1, r.2)

lemma levelUpLoop_cooldowns (T : Int) :
    ∀ (fuel : Nat) (p : Player) (lev : Bool),
      (levelUpLoop T fuel p lev).1.cooldowns = p.cooldowns := by
  intro fuel
  induction fuel with
  | zero => intro p lev; rfl
  | succ fuel ih =>
    intro p lev
    rw [levelUpLoop]
    by_cases hx : T ≤ p.xp
    · rw [if_pos hx, ih]
      rfl
    · rw [if_neg hx]

lemma grantCapsAndXp_cooldowns (p : Player) (c x : Int) :
    (grantCapsAndXp p c x).1.cooldowns = p.cooldowns := by
  unfold grantCapsAndXp
  rw [levelUpLoop_cooldowns]

lemma rollEncounter_cooldowns (r : Rat) (p : Player) :
    (rollEncounter r p).2.cooldowns = p.cooldowns := by
  unfold rollEncounter
  split <;> try rfl
  split <;> try rfl
  split <;> rfl

lemma claimResolvePre_cooldowns (cfg : ClaimConfig) (p : Player) (loc : Location)
    (now : Int) (eventName : Option String) (lootRand encRand : Rat) :
    (claimResolvePre cfg p loc now eventName lootRand encRand).2.cooldowns =
      { claim := now } := by
  rcases hloot : rollLoot loc.lootTable p.factionRep.brotherhood lootRand with _ | e <;>
    by_cases hev : eventName = some ("Raider Skirmish") ∧ loc.id = "nukaTown" <;>
      simp [claimResolvePre, hloot, hev, grantCapsAndXp_cooldowns, rollEncounter_cooldowns]

/-- C5: once the cooldown and geofence gates pass, the claim outcome is
(ClaimResponse.ok of the resolved reward with the mint outcome recorded in
the chain field, resolved player state). The player state component does
not depend on the mint outcome m at all (so a mint failure rolls nothing
back: currency, xp, level, health, inventory and the committed cooldown
timestamp are those of the reward resolution), the committed last-claim
timestamp is now, the response still carries the full capsEarned of the
resolution, and the mint outcome is visibly surfaced in the chain field. -/
theorem claim_mint_failure_decoupled (cfg : ClaimConfig) (p : Player) (loc : Location)
    (now : Int) (reportedDist : Option Rat) (eventName : Option String)
    (lootRand encRand : Rat) (m : MintOutcome)
    (hsim : cfg.simulateMint = false)
    (hcool : ¬ now - p.cooldowns.claim < cfg.cooldownMs)
    (hgeo : reportedDist = none ∨ ∃ d, reportedDist = some d ∧ ¬ loc.radiusM < d) :
    claimSurvival cfg p loc now reportedDist eventName lootRand encRand m =
      (ClaimResponse.ok
        { (claimResolvePre cfg p loc now eventName lootRand encRand).1 with chain := some m },
        (claimResolvePre cfg p loc now eventName lootRand encRand).2) ∧
    (claimResolvePre cfg p loc now eventName lootRand encRand).2.cooldowns.claim = now ∧
    ({ (claimResolvePre cfg p loc now eventName lootRand encRand).1 with
        chain := some m } : ClaimOk).capsEarned =
      (claimResolvePre cfg p loc now eventName lootRand encRand).1.capsEarned := by
  have hres : claimResolve cfg p loc now eventName lootRand encRand m =
      ({ (claimResolvePre cfg p loc now eventName lootRand encRand).1 with chain := some m },
        (claimResolvePre cfg p loc now eventName lootRand encRand).2) := by
    unfold claimResolve
    rw [hsim]
    simp
  refine ⟨?_, ?_, rfl⟩
  · rcases hgeo with h | ⟨d, hd, hlt⟩
    · subst h
      unfold claimSurvival
      rw [if_neg hcool]
      rw [hres]
    · subst hd
      unfold claimSurvival
      rw [if_neg hcool]
      simp only [if_neg hlt]
      rw [hres]
  · rw [claimResolvePre_cooldowns]

/-- Location nukaTown of server.js (coordinate omitted: the geofence gate
consumes the precomputed distance). -/
def nukaTownLoc : Location :=
  { id := "nukaTown", name := "NukaTown", radiusM := 150, lootTable := nukaTownLootTable }

/-- Server configuration used in the claim witnesses. -/
def cfgNoSim : ClaimConfig := { cooldownMs := 3600000, simulateMint := false }

/-- C5 witness: a claim after the cooldown window, with no coordinate
supplied and a failing mint. -/
theorem claim_mint_failure_decoupled_witness :
    claimSurvival cfgNoSim (defaultPlayer "w") nukaTownLoc 7200000 none none
        (1 / 2) (1 / 2) (MintOutcome.fail ("Mint failed")) =
      (ClaimResponse.ok
        { (claimResolvePre cfgNoSim (defaultPlayer "w") nukaTownLoc 7200000 none
            (1 / 2) (1 / 2)).1 with chain := some (MintOutcome.fail ("Mint failed")) },
        (claimResolvePre cfgNoSim (defaultPlayer "w") nukaTownLoc 7200000 none
          (1 / 2) (1 / 2)).2) ∧
    (claimResolvePre cfgNoSim (defaultPlayer "w") nukaTownLoc 7200000 none
      (1 / 2) (1 / 2)).2.cooldowns.claim = 7200000 := by
  have h := claim_mint_failure_decoupled cfgNoSim (defaultPlayer "w") nukaTownLoc 7200000
    none none (1 / 2) (1 / 2) (MintOutcome.fail ("Mint failed"))
    (by decide) (by decide) (Or.inl rfl)
  exact ⟨h.1, h.2.1⟩

/-- C6: a claim whose elapsed time since the committed last-claim
timestamp is below the configured cooldown fails with the cooldown-active
response carrying remaining = cooldown - elapsed, mutates no player
state, and the remaining time is positive and at most the cooldown. -/
theorem claim_cooldown_active (cfg : ClaimConfig) (p : Player) (loc : Location)
    (now : Int) (reportedDist : Option Rat) (eventName : Option String)
    (lootRand encRand : Rat) (m : MintOutcome)
    (hlt : now - p.cooldowns.claim < cfg.cooldownMs)
    (h0 : p.cooldowns.claim ≤ now) :
    claimSurvival cfg p loc now reportedDist eventName lootRand encRand m =
      (ClaimResponse.cooldownActive (cfg.cooldownMs - (now - p.cooldowns.claim)), p) ∧
    0 < cfg.cooldownMs - (now - p.cooldowns.claim) ∧
    cfg.cooldownMs - (now - p.cooldowns.claim) ≤ cfg.cooldownMs := by
  refine ⟨?_, by omega, by omega⟩
  unfold claimSurvival
  rw [if_pos hlt]

/-- Player who claimed at time 7200000, used in the C6 witness. -/
def pClaimed : Player := { defaultPlayer "w" with cooldowns := { claim := 7200000 } }

/-- C6 witness: a second claim 100 ms after the first. -/
theorem claim_cooldown_active_witness :
    claimSurvival cfgNoSim pClaimed nukaTownLoc 7200100 none none (1 / 2) (1 / 2)
        (MintOutcome.tx ("SIG")) =
      (ClaimResponse.cooldownActive
        (cfgNoSim.cooldownMs - (7200100 - pClaimed.cooldowns.claim)), pClaimed) ∧
    0 < cfgNoSim.cooldownMs - (7200100 - pClaimed.cooldowns.claim) ∧
    cfgNoSim.cooldownMs - (7200100 - pClaimed.cooldowns.claim) ≤ cfgNoSim.cooldownMs :=
  claim_cooldown_active cfgNoSim pClaimed nukaTownLoc 7200100 none none (1 / 2) (1 / 2)
    (MintOutcome.tx ("SIG")) (by decide) (by decide)

/-- The in-memory keyed player store (the players object of server.js). -/
def Store : Type := String → Option Player

/-- Embedding of ensurePlayer(wallet): return the stored player, or create
and persist the default record on first reference. -/
def ensurePlayer (s : Store) (wallet : String) : Player × Store :=
  match s wallet with
  | some p => (p, s)
  | none =>
    (defaultPlayer wallet,
      fun w => if w = wallet then some (defaultPlayer wallet) else s w)

/-- Persist an updated player record under its wallet key. -/
def storePut (s : Store) (wallet : String) (p : Player) : Store :=
  fun w => if w = wallet then some p else s w

/-- GET /player/:wallet. -/
def playerEndpoint (s : Store) (wallet : String) : Player × Store :=
  ensurePlayer s wallet

/-- GET /balance/:wallet. -/
def balanceEndpoint (s : Store) (wallet : String) : (String × Int) × Store :=
  let ps := ensurePlayer s wallet
  ((ps.1.wallet, ps.1.caps), ps.2)

/-- GET /inventory/:wallet. -/
def inventoryEndpoint (s : Store) (wallet : String) : (List Item × Gear) × Store :=
  let ps := ensurePlayer s wallet
  ((ps.1.inventory, ps.1.gear), ps.2)

/-- GET /factions/:wallet. -/
def factionsEndpoint (s : Store) (wallet : String) : FactionRep × Store :=
  let ps := ensurePlayer s wallet
  (ps.1.factionRep, ps.2)

/-- Reputation update of POST /factions/adjust for a valid faction name. -/
def adjustRep (fr : FactionRep) (faction : String) (delta : Int) : FactionRep :=
  if faction = "brotherhood" then { fr with brotherhood := fr.brotherhood + delta }
  else if faction = "raiders" then { fr with raiders := fr.raiders + delta }
  else if faction = "vault" then { fr with vault := fr.vault + delta }
  else fr

/-- Reputation read used in the POST /factions/adjust response. -/
def repValue (fr : FactionRep) (faction : String) : Int :=
  if faction = "brotherhood" then fr.brotherhood
  else if faction = "raiders" then fr.raiders
  else if faction = "vault" then fr.vault
  else 0

/-- Result of POST /factions/adjust. -/
inductive AdjustResult
  | err (msg : String)
  | ok (faction : String) (value : Int)
deriving DecidableEq

/-- Embedding of POST /factions/adjust: ensurePlayer runs first (creating
and persisting a default record for an unknown wallet), and only then is
the faction name validated against the fixed set. -/
def factionsAdjust (s : Store) (wallet faction : String) (delta : Int) :
    AdjustResult × Store :=
  let ps := ensurePlayer s wallet
  if faction = "brotherhood" ∨ faction = "raiders" ∨ faction = "vault" then
    let p1 := { ps.1 with factionRep := adjustRep ps.1.factionRep faction delta }
    (AdjustResult.ok faction (repValue p1.factionRep faction), storePut ps.2 wallet p1)
  else (AdjustResult.err ("Invalid faction"), ps.2)

/-- C10: for a wallet with no stored record, a faction-adjust naming a
faction outside {brotherhood, raiders, vault} returns the invalid-faction
error and yet persists a freshly created default player for that wallet,
and each read-only endpoint (player, balance, inventory, factions)
likewise creates and persists the default player on first reference. -/
theorem unknown_wallet_creation (s : Store) (wallet faction : String) (delta : Int)
    (hnew : s wallet = none)
    (hf : ¬ (faction = "brotherhood" ∨ faction = "raiders" ∨ faction = "vault")) :
    (factionsAdjust s wallet faction delta).1 = AdjustResult.err ("Invalid faction") ∧
    (factionsAdjust s wallet faction delta).2 wallet = some (defaultPlayer wallet) ∧
    (playerEndpoint s wallet).2 wallet = some (defaultPlayer wallet) ∧
    (balanceEndpoint s wallet).2 wallet = some (defaultPlayer wallet) ∧
    (inventoryEndpoint s wallet).2 wallet = some (defaultPlayer wallet) ∧
    (factionsEndpoint s wallet).2 wallet = some (defaultPlayer wallet) := by
  have hens : ensurePlayer s wallet =
      (defaultPlayer wallet,
        fun w => if w = wallet then some (defaultPlayer wallet) else s w) := by
    unfold ensurePlayer
    rw [hnew]
  have hpt : (fun w => if w = wallet then some (defaultPlayer wallet) else s w) wallet =
      some (defaultPlayer wallet) := by
    simp
  refine ⟨?_, ?_, ?_, ?_, ?_, ?_⟩
  · unfold factionsAdjust
    rw [hens, if_neg hf]
  · unfold factionsAdjust
    rw [hens, if_neg hf]
    exact hpt
  · unfold playerEndpoint
    rw [hens]
    exact hpt
  · unfold balanceEndpoint
    rw [hens]
    exact hpt
  · unfold inventoryEndpoint
    rw [hens]
    exact hpt
  · unfold factionsEndpoint
    rw [hens]
    exact hpt

/-- The empty player store. -/
def emptyStore : Store := fun _ => none

/-- C10 witness: an unknown wallet and the faction name enclave. -/
theorem unknown_wallet_creation_witness :
    (factionsAdjust emptyStore "alice" "enclave" 5).1 = AdjustResult.err ("Invalid faction") ∧
    (factionsAdjust emptyStore "alice" "enclave" 5).2 "alice" = some (defaultPlayer "alice") ∧
    (playerEndpoint emptyStore "alice").2 "alice" = some (defaultPlayer "alice") ∧
    (balanceEndpoint emptyStore "alice").2 "alice" = some (defaultPlayer "alice") ∧
    (inventoryEndpoint emptyStore "alice").2 "alice" = some (defaultPlayer "alice") ∧
    (factionsEndpoint emptyStore "alice").2 "alice" = some (defaultPlayer "alice") :=
  unknown_wallet_creation emptyStore "alice" "enclave" 5 rfl (by decide)
